import Mathlib

/-!
# Verification of the `ghaze` GitHub-trending reporter

A shallow embedding of `src/main.py` (class `GitHubTrendingReporter`) and
proofs about it.  Python strings are modelled as `List Char` (`PyStr`),
wall-clock instants as rationals counting seconds, the cache file as an
optional `CacheFile` (its last-modified time plus its content), and every
fallible Python call as an `Except PyError` value.  External effects
(the HTTP GET of the trending page, the Groq chat completion) are supplied
as oracle inputs, so each method becomes a pure function of its inputs.
-/

namespace Ghaze

/-- Python `str` values are modelled as lists of characters. -/
abbrev PyStr := List Char

/-- The Python exceptions that the program under study can raise. -/
inductive PyError where
  /-- `requests.get` failed at the network level (`requests.ConnectionError` etc.). -/
  | connectionError
  /-- `AttributeError`, e.g. calling `.get_text()` on `None`. -/
  | attributeError
  /-- `IndexError`, e.g. `select('a.Link--muted')[1]` on a short list. -/
  | indexError
  /-- `json.JSONDecodeError` raised by `json.load` on malformed input. -/
  | jsonDecodeError
  /-- `FileNotFoundError` raised by `open` on a missing file. -/
  | fileNotFoundError
  /-- `KeyError` raised by `d[k]` when `k` is absent from the dict `d`. -/
  | keyError (k : String)
  /-- the Groq SDK call failed (auth, rate limit, network). -/
  | groqError
deriving DecidableEq

/-! ## JSON values and the cache file (src/main.py lines 20, 22-36) -/

/-- The fragment of JSON the program manipulates: strings and objects.
`json.dump` / `json.load` round-trip these exactly. -/
inductive Json where
  | str (s : String)
  | obj (fields : List (String × Json))

/-- Python `d[k]` lookup on a parsed JSON value: the value of the first
field named `k` of an object, `none` when absent (a `KeyError` at the
call site) or when the value is not an object. -/
def Json.getField : Json → String → Option Json
  | .str _, _ => none
  | .obj fields, k => (fields.find? (fun p => p.1 == k)).map Prod.snd

/-- The content of the cache file on disk: either a valid JSON
serialization of some value, or bytes that `json.load` rejects. -/
inductive FileContent where
  | corrupt
  | json (j : Json)

/-- The cache file `github_trending_cache.json` as the OS exposes it to the
program: a last-modified time (`os.path.getmtime`, in seconds) and a
content.  `Option CacheFile` is `none` when the file does not exist. -/
structure CacheFile where
  mtime : ℚ
  content : FileContent

/-- `should_refresh_cache` (src/main.py lines 22-28): `True` when the cache
file is missing, otherwise `True` iff `datetime.now() - mtime` exceeds
`timedelta(hours=24)` (86400 seconds).  `now` is the current time in
seconds. -/
def should_refresh_cache (cache : Option CacheFile) (now : ℚ) : Bool :=
  match cache with
  | none => true
  | some f => decide (now - f.mtime > 86400)

/-- `load_cached_report` (src/main.py lines 30-32): `json.load` on the cache
file's content.  It raises `json.JSONDecodeError` on malformed content and
otherwise returns the parsed value as-is — no schema validation. -/
def load_cached_report : FileContent → Except PyError Json
  | .corrupt => .error .jsonDecodeError
  | .json j => .ok j

/-- `save_cache` (src/main.py lines 34-36): `json.dump(report_data, f)`
fully replaces the file's content with a valid JSON serialization. -/
def save_cache (report_data : Json) : FileContent :=
  .json report_data

/-- The `cache_data` dict built in `generate_daily_report`
(src/main.py lines 193-196). -/
def mkCacheData (timestamp full_report : String) : Json :=
  .obj [("timestamp", .str timestamp), ("full_report", .str full_report)]

/-! ## The fetcher (src/main.py lines 58-92) -/

/-- `True` on the characters Python's `str.strip()` removes. -/
def pyStripChar (c : Char) : Bool :=
  c == ' ' || c == '\t' || c == '\n' || c == '\r' || c == '\x0b' || c == '\x0c'

/-- Python `s.strip()`: drop leading and trailing whitespace. -/
def pyStrip (s : PyStr) : PyStr :=
  ((s.dropWhile pyStripChar).reverse.dropWhile pyStripChar).reverse

/-- Python `s.replace(c, '')` for a one-character pattern `c`: remove every
occurrence of `c`. -/
def removeChar (c : Char) (s : PyStr) : PyStr :=
  s.filter (· != c)

/-- One `article.Box-row` element of the trending page, reduced to the three
pieces the extraction loop reads: the text of the `h2.h3` title element
(`none` when `select_one` finds no such element), the text of the `p.col-9`
description element, and the texts of the `a.Link--muted` anchors in
document order. -/
structure Article where
  titleText : Option PyStr
  descText : Option PyStr
  mutedLinks : List PyStr
deriving DecidableEq

/-- One repository record, the dict built at src/main.py lines 84-89. -/
structure Repo where
  full_name : PyStr
  description : PyStr
  html_url : PyStr
  stargazers_count : PyStr
deriving DecidableEq

/-- The literal `"https://github.com/"` used to build `html_url`. -/
def githubUrlBase : PyStr := "https://github.com/".data

/-- The body of the `for article in articles:` loop (src/main.py lines
71-90) for one article.  `title_element.get_text().strip().replace('\n',
'').replace(' ', '')` raises `AttributeError` when `select_one('h2.h3')`
returned `None`; a missing `p.col-9` yields `description = ''`;
`select('a.Link--muted')[1]` raises `IndexError` when fewer than two such
anchors exist. -/
def extract_repo (a : Article) : Except PyError Repo :=
  match a.titleText with
  | none => .error .attributeError
  | some t =>
    let full_name := removeChar ' ' (removeChar '\n' (pyStrip t))
    let description :=
      match a.descText with
      | some d => pyStrip d
      | none => []
    match a.mutedLinks[1]? with
    | none => .error .indexError
    | some starsText =>
      .ok { full_name := full_name
            description := description
            html_url := githubUrlBase ++ full_name
            stargazers_count := pyStrip starsText }

/-- The whole extraction loop: records for all articles in page order; the
first raising article aborts the loop (and the partial list is lost,
because the exception propagates out of `fetch_trending_repos`). -/
def extractAll : List Article → Except PyError (List Repo)
  | [] => .ok []
  | a :: rest =>
    match extract_repo a with
    | .error e => .error e
    | .ok r =>
      match extractAll rest with
      | .error e => .error e
      | .ok rs => .ok (r :: rs)

/-- The outcome of `requests.get(url, headers=headers)`: either a raised
network exception, or a response with an HTTP status code and a body that
BeautifulSoup reduces to the list of `article.Box-row` elements. -/
inductive NetResult where
  | failure
  | response (status : Nat) (page : List Article)

/-- `fetch_trending_repos` (src/main.py lines 58-92): a network failure
propagates; otherwise the body is parsed regardless of the HTTP status
(the method never consults `response.status_code` and never calls
`raise_for_status`), every article is extracted, and the list is truncated
to the first 10 records (`trending_repos[:10]`). -/
def fetch_trending_repos (net : NetResult) : Except PyError (List Repo) :=
  match net with
  | .failure => .error .connectionError
  | .response _status page =>
    match extractAll page with
    | .error e => .error e
    | .ok trending_repos => .ok (trending_repos.take 10)

/-! ## The summarizer (src/main.py lines 94-117) -/

/-- The `repo_details` string of `generate_repo_summary` (src/main.py lines
95-101): one four-line block per repository, joined by blank lines.  Every
record built by the fetcher carries a `description` key, so
`repo.get('description', 'No description')` returns the stored value. -/
def repo_details (repos : List Repo) : PyStr :=
  List.intercalate "\n\n".data
    (repos.map fun repo =>
      "Repository: ".data ++ repo.full_name ++
      "\nDescription: ".data ++ repo.description ++
      "\nStars: ".data ++ repo.stargazers_count ++
      "\nURL: ".data ++ repo.html_url)

/-- The user prompt of `generate_repo_summary` (src/main.py lines 103-107),
the triple-quoted f-string with `repo_details` interpolated. -/
def summaryPrompt (repos : List Repo) : PyStr :=
  "Provide a professional summary of the following trending GitHub repositories.\n        Highlight their purpose, key features, and potential use cases:\n\n        ".data
    ++ repo_details repos ++ "\n        ".data

/-! ## The renderer (src/main.py lines 139-163) -/

/-- Python `s.split(sep)` for the three-character separator `sep = "---"`,
scanning left to right and cutting at each non-overlapping occurrence.
`acc` holds the characters of the current piece in reverse. -/
def splitDashesAux : PyStr → PyStr → List PyStr
  | [], acc => [acc.reverse]
  | c :: rest, acc =>
    if ['-', '-', '-'].isPrefixOf (c :: rest) then
      acc.reverse :: splitDashesAux ((c :: rest).drop 3) []
    else
      splitDashesAux rest (c :: acc)
termination_by s _ => s.length
decreasing_by
  · simp only [List.length_drop, List.length_cons]; omega
  · simp only [List.length_cons]; omega

/-- `report.split("---")` (src/main.py line 148). -/
def splitDashes (s : PyStr) : List PyStr :=
  splitDashesAux s []

/-- The body of the `for section in sections:` loop (src/main.py lines
149-163) for one section: skipped when `section.strip()` is empty,
otherwise rendered as one panel whose title is `lines[0]` and whose
content is `'\n'.join(lines[1:])`, for `lines = section.strip().split('\n')`. -/
def render_section (sec : PyStr) : Option (PyStr × PyStr) :=
  if pyStrip sec = [] then
    none
  else
    let lines := (pyStrip sec).splitOn '\n'
    some (lines.headD [], List.intercalate ['\n'] lines.tail)

/-- `display_report` (src/main.py lines 139-163), reduced to its observable
output: the ordered list of bordered panels it prints (title, content), one
per section of `report.split("---")` whose `strip()` is non-empty.  The
fixed banner and date line printed before the panels carry no information
about `report` and are omitted. -/
def display_report (report : PyStr) : List (PyStr × PyStr) :=
  (splitDashes report).filterMap render_section

/-! ## The reporter (src/main.py lines 166-200) -/

/-- The calls `generate_daily_report` makes on its collaborators, in
program order. -/
inductive Action where
  | loadCache
  | fetchAll
  | summarizeAll
  | fetchGo
  | summarizeGo
  | save
  | display
deriving DecidableEq

/-- The oracle inputs of one `generate_daily_report` run: the current time,
the two formatted `datetime.now()` strings, the outcomes of the two
`requests.get` calls, and the Groq chat-completion service as a function
from the user prompt to the completion text (or a raised error). -/
structure Env where
  now : ℚ
  todayStr : PyStr
  nowIso : String
  netAll : NetResult
  netGo : NetResult
  groq : PyStr → Except PyError PyStr

/-- `generate_repo_summary` (src/main.py lines 94-117): builds the prompt
from the records and returns the Groq completion for it, propagating any
service error. -/
def generate_repo_summary (env : Env) (repos : List Repo) : Except PyError PyStr :=
  env.groq (summaryPrompt repos)

/-- The `full_report` f-string of `generate_daily_report` (src/main.py
lines 183-191). -/
def mkFullReport (today all_repos_summary golang_repos_summary : PyStr) : PyStr :=
  "Daily GitHub Trending Repositories Report\n".data ++ today ++
  "\n\n--- All Trending Repositories ---\n".data ++ all_repos_summary ++
  "\n\n--- Trending Golang Repositories ---\n".data ++ golang_repos_summary ++
  "\n".data

/-- The observable outcome of one `generate_daily_report` run: the calls
made in order, the cache file afterwards, and normal return or a raised
exception. -/
abbrev RunResult := List Action × Option CacheFile × Except PyError Unit

/-- The cache-hit path of `generate_daily_report` (src/main.py lines
167-171): load the cached dict, read `cached_data['full_report']`, display
it.  `open` on a missing file, malformed JSON, a missing key, and
`report.split` on a non-string all raise. -/
def cacheHitPath (cache : Option CacheFile) : RunResult :=
  match cache with
  | none => ([Action.loadCache], cache, .error .fileNotFoundError)
  | some f =>
    match load_cached_report f.content with
    | .error e => ([Action.loadCache], cache, .error e)
    | .ok cached_data =>
      match cached_data.getField "full_report" with
      | none => ([Action.loadCache], cache, .error (.keyError "full_report"))
      | some (.str _) => ([Action.loadCache, Action.display], cache, .ok ())
      | some (.obj _) => ([Action.loadCache], cache, .error .attributeError)

/-- The refresh path of `generate_daily_report` (src/main.py lines
173-200): fetch and summarize the unfiltered variant, then the `go`
variant, assemble `full_report`, save the cache (which rewrites the file,
making its modification time `now`), display.  Each raising call aborts
the run at that point, leaving the cache file untouched. -/
def refreshPath (env : Env) (cache : Option CacheFile) : RunResult :=
  match fetch_trending_repos env.netAll with
  | .error e => ([Action.fetchAll], cache, .error e)
  | .ok all_trending =>
    match generate_repo_summary env all_trending with
    | .error e => ([Action.fetchAll, Action.summarizeAll], cache, .error e)
    | .ok all_repos_summary =>
      match fetch_trending_repos env.netGo with
      | .error e =>
        ([Action.fetchAll, Action.summarizeAll, Action.fetchGo], cache, .error e)
      | .ok golang_trending =>
        match generate_repo_summary env golang_trending with
        | .error e =>
          ([Action.fetchAll, Action.summarizeAll, Action.fetchGo,
            Action.summarizeGo], cache, .error e)
        | .ok golang_repos_summary =>
          let full_report :=
            mkFullReport env.todayStr all_repos_summary golang_repos_summary
          ([Action.fetchAll, Action.summarizeAll, Action.fetchGo,
            Action.summarizeGo, Action.save, Action.display],
           some ⟨env.now, save_cache (mkCacheData env.nowIso ⟨full_report⟩)⟩,
           .ok ())

/-- `generate_daily_report` (src/main.py lines 166-200): reuse the cache
when `should_refresh_cache()` is false, otherwise run the refresh
pipeline. -/
def generate_daily_report (env : Env) (cache : Option CacheFile) : RunResult :=
  match should_refresh_cache cache env.now with
  | false => cacheHitPath cache
  | true => refreshPath env cache

/-! ## Claim C1: the freshness policy of `should_refresh_cache` -/

/-- C1: a missing cache file always requires a refresh; an existing file is
fresh (no refresh) iff `now - mtime ≤ 24` hours, so a file modified
86399 seconds (24h − 1s) ago is fresh and one modified 86401 seconds
(24h + 1s) ago is stale. -/
theorem claim_C1_freshness (now mtime : ℚ) (c c' c'' : FileContent) :
    should_refresh_cache none now = true ∧
    (should_refresh_cache (some ⟨mtime, c⟩) now = false ↔ now - mtime ≤ 86400) ∧
    should_refresh_cache (some ⟨now - 86399, c'⟩) now = false ∧
    should_refresh_cache (some ⟨now - 86401, c''⟩) now = true := by
  refine ⟨rfl, ?_, ?_, ?_⟩
  · simp [should_refresh_cache]
  · simp [should_refresh_cache]
    linarith
  · simp [should_refresh_cache]
    linarith

/-! ## Claim C2: HTTP status handling in `fetch_trending_repos` -/

/-- A well-formed sample article, as served inside a non-success response
body (e.g. a GitHub error page that still happens to contain one
`article.Box-row`). -/
def sampleArticle : Article :=
  { titleText := some "octo/repo".data
    descText := some "A demo repository".data
    mutedLinks := ["builtby".data, " 1,234 ".data] }

/-- The record `fetch_trending_repos` extracts from `sampleArticle`. -/
def sampleRepo : Repo :=
  { full_name := "octo/repo".data
    description := "A demo repository".data
    html_url := "https://github.com/octo/repo".data
    stargazers_count := "1,234".data }

/-- C2 counterexample: with HTTP status 404, `fetch_trending_repos` does
not fail — it returns a normal record list built from the error response's
body, because the method never consults the status code
(no `raise_for_status` in src/main.py lines 58-92). -/
theorem claim_C2_counterexample :
    fetch_trending_repos (.response 404 [sampleArticle]) = .ok [sampleRepo] := by
  rfl

/-- C2 amended: a network failure of the listing request propagates as an
error, but a non-success HTTP status does not fail the call: the response
body is parsed identically whatever the status, so a record list built
from an error response can be returned. -/
theorem claim_C2_amended (s s' : Nat) (page : List Article) :
    fetch_trending_repos .failure = .error .connectionError ∧
    fetch_trending_repos (.response s page) = fetch_trending_repos (.response s' page) :=
  ⟨rfl, rfl⟩

/-! ## Claims C6 and C7: the cache round-trip and `load_cached_report` -/

/-- C6: saving a report dict `{timestamp: t, full_report: r}` and loading
it back yields a dict whose `timestamp` and `full_report` fields are
identical to those saved. -/
theorem claim_C6_roundtrip (t r : String) :
    load_cached_report (save_cache (mkCacheData t r)) = .ok (mkCacheData t r) ∧
    (mkCacheData t r).getField "timestamp" = some (.str t) ∧
    (mkCacheData t r).getField "full_report" = some (.str r) := by
  refine ⟨rfl, by simp [mkCacheData, Json.getField], by simp [mkCacheData, Json.getField]⟩

/-- C7 counterexample: a cache file holding the valid JSON object `{}` —
an incompatible schema with both `timestamp` and `full_report` absent — is
returned normally by `load_cached_report` (plain `json.load`, src/main.py
lines 30-32), not rejected with a ParseError. -/
theorem claim_C7_counterexample :
    load_cached_report (.json (.obj [])) = .ok (.obj []) ∧
    (Json.obj []).getField "timestamp" = none ∧
    (Json.obj []).getField "full_report" = none :=
  ⟨rfl, rfl, rfl⟩

/-- C7 amended: `load_cached_report` fails with a ParseError exactly when
the stored file is corrupt (not valid JSON); any valid JSON value —
including one with a required field absent — is returned normally, the
missing-field failure surfacing only later at the caller's dict access. -/
theorem claim_C7_amended (j : Json) :
    load_cached_report .corrupt = .error .jsonDecodeError ∧
    load_cached_report (.json j) = .ok j :=
  ⟨rfl, rfl⟩

/-! ## Claim C9: freshness ignores the file's content -/

/-- C9: the freshness decision depends only on the file's existence and
last-modified time: two files with equal `mtime` and arbitrarily
different contents yield the same `should_refresh_cache` answer. -/
theorem claim_C9_content_independent (now : ℚ) (f g : CacheFile)
    (h : f.mtime = g.mtime) :
    should_refresh_cache (some f) now = should_refresh_cache (some g) now := by
  simp [should_refresh_cache, h]

/-- A cache file whose embedded `timestamp` field says year 2020. -/
def cacheFileOld : CacheFile :=
  ⟨1000, .json (mkCacheData "2020-01-01T00:00:00" "an old report")⟩

/-- A cache file with the same modification time but a different content,
whose embedded `timestamp` field says year 2099. -/
def cacheFileNew : CacheFile :=
  ⟨1000, .json (mkCacheData "2099-12-31T23:59:59" "a different report")⟩

/-- C9 witness: two concrete files with equal modification times, whose
contents (embedded timestamp fields included) differ, get the same
freshness decision. -/
theorem claim_C9_witness :
    cacheFileOld.mtime = cacheFileNew.mtime ∧
    cacheFileOld.content ≠ cacheFileNew.content ∧
    should_refresh_cache (some cacheFileOld) 2000 =
      should_refresh_cache (some cacheFileNew) 2000 :=
  ⟨rfl, by simp [cacheFileOld, cacheFileNew, mkCacheData],
   claim_C9_content_independent 2000 cacheFileOld cacheFileNew rfl⟩

/-! ## Claims C4, C8, C10: the extraction loop -/

/-- An article on which the extraction loop cannot raise: its `h2.h3`
title element exists and it has at least two `a.Link--muted` anchors. -/
def Article.wellFormed (a : Article) : Prop :=
  a.titleText.isSome = true ∧ 2 ≤ a.mutedLinks.length

instance (a : Article) : Decidable a.wellFormed :=
  inferInstanceAs (Decidable (_ ∧ _))

/-- Computation rule for `extract_repo` when both mandatory sub-elements
are present. -/
theorem extract_repo_eq (a : Article) (t st : PyStr)
    (ht : a.titleText = some t) (hst : a.mutedLinks[1]? = some st) :
    extract_repo a =
      .ok { full_name := removeChar ' ' (removeChar '\n' (pyStrip t))
            description := (match a.descText with
              | some d => pyStrip d
              | none => [])
            html_url := githubUrlBase ++ removeChar ' ' (removeChar '\n' (pyStrip t))
            stargazers_count := pyStrip st } := by
  unfold extract_repo
  rw [ht, hst]

/-- Extraction succeeds on every well-formed article. -/
theorem extract_repo_isOk (a : Article) (h : a.wellFormed) :
    ∃ r, extract_repo a = .ok r := by
  obtain ⟨ht, hl⟩ := h
  obtain ⟨t, ht'⟩ := Option.isSome_iff_exists.mp ht
  obtain ⟨st, hst⟩ : ∃ st, a.mutedLinks[1]? = some st :=
    ⟨_, List.getElem?_eq_getElem (by omega)⟩
  exact ⟨_, extract_repo_eq a t st ht' hst⟩

/-- When every article extracts, `extractAll` succeeds with one record per
article, the `i`-th record extracted from the `i`-th article. -/
theorem extractAll_spec (page : List Article)
    (h : ∀ a ∈ page, ∃ r, extract_repo a = .ok r) :
    ∃ l, extractAll page = .ok l ∧ l.length = page.length ∧
      ∀ i, (hi : i < page.length) → (hl : i < l.length) →
        extract_repo (page.get ⟨i, hi⟩) = .ok (l.get ⟨i, hl⟩) := by
  induction page with
  | nil =>
    exact ⟨[], rfl, rfl, fun i hi _ => absurd hi (by simp)⟩
  | cons a rest ih =>
    obtain ⟨r, hr⟩ := h a (List.mem_cons_self a rest)
    obtain ⟨l, hl, hlen, hidx⟩ := ih (fun a' ha' => h a' (List.mem_cons_of_mem a ha'))
    refine ⟨r :: l, by simp [extractAll, hr, hl], by simp [hlen], ?_⟩
    intro i hi hli
    cases i with
    | zero => simpa using hr
    | succ n =>
      simpa using hidx n (by simpa using hi) (by simpa using hli)

/-- Every record in a successful `extractAll` result comes from an article
of the page. -/
theorem extractAll_mem (page : List Article) (l : List Repo)
    (h : extractAll page = .ok l) (r : Repo) (hr : r ∈ l) :
    ∃ a ∈ page, extract_repo a = .ok r := by
  induction page generalizing l with
  | nil =>
    simp only [extractAll] at h
    cases h
    simp at hr
  | cons a rest ih =>
    cases he : extract_repo a with
    | error e => simp [extractAll, he] at h
    | ok r0 =>
      cases ht : extractAll rest with
      | error e => simp [extractAll, he, ht] at h
      | ok rs =>
        simp only [extractAll, he, ht] at h
        cases h
        rcases List.mem_cons.mp hr with hr0 | hrs
        · exact ⟨a, List.mem_cons_self a rest, hr0 ▸ he⟩
        · obtain ⟨a', ha', he'⟩ := ih rs ht hrs
          exact ⟨a', List.mem_cons_of_mem a ha', he'⟩

/-- C4: on a page whose `article.Box-row` entries all have the expected
sub-structure, `fetch_trending_repos` returns exactly `min N 10` records
for `N` entries, in page order (`extractAll` produces one record per
article, the `i`-th from the `i`-th, and the result is its 10-prefix). -/
theorem claim_C4_extraction_bound (s : Nat) (page : List Article)
    (h : ∀ a ∈ page, a.wellFormed) :
    ∃ l, extractAll page = .ok l ∧ l.length = page.length ∧
      fetch_trending_repos (.response s page) = .ok (l.take 10) ∧
      (l.take 10).length = min page.length 10 ∧
      ∀ i, (hi : i < page.length) → (hl : i < l.length) →
        extract_repo (page.get ⟨i, hi⟩) = .ok (l.get ⟨i, hl⟩) := by
  obtain ⟨l, hl, hlen, hidx⟩ :=
    extractAll_spec page (fun a ha => extract_repo_isOk a (h a ha))
  refine ⟨l, hl, hlen, by simp [fetch_trending_repos, hl], ?_, hidx⟩
  simp [List.length_take, hlen, Nat.min_comm]

/-- A second well-formed sample article. -/
def sampleArticle2 : Article :=
  { titleText := some " acme /\n tool ".data
    descText := none
    mutedLinks := ["builtby".data, " 99 ".data, "forks".data] }

/-- A two-article sample page. -/
def samplePage : List Article := [sampleArticle, sampleArticle2]

/-- C4 witness: on the concrete two-article page every entry is
well-formed, and the claim's conclusion holds there. -/
theorem claim_C4_witness :
    (∀ a ∈ samplePage, a.wellFormed) ∧
    (∃ l, extractAll samplePage = .ok l ∧ l.length = samplePage.length ∧
      fetch_trending_repos (.response 200 samplePage) = .ok (l.take 10) ∧
      (l.take 10).length = min samplePage.length 10 ∧
      ∀ i, (hi : i < samplePage.length) → (hl : i < l.length) →
        extract_repo (samplePage.get ⟨i, hi⟩) = .ok (l.get ⟨i, hl⟩)) :=
  ⟨by decide, claim_C4_extraction_bound 200 samplePage (by decide)⟩

/-- C8: an article whose description element is missing but whose other
sub-elements are in place yields a record with an empty description — the
entry, and a fetch of a page carrying it, still succeed. -/
theorem claim_C8_missing_description (a : Article) (t : PyStr)
    (ht : a.titleText = some t) (hd : a.descText = none)
    (hl : 2 ≤ a.mutedLinks.length) :
    ∃ r, extract_repo a = .ok r ∧ r.description = [] ∧
      ∀ s, fetch_trending_repos (.response s [a]) = .ok [r] := by
  obtain ⟨st, hst⟩ : ∃ st, a.mutedLinks[1]? = some st :=
    ⟨_, List.getElem?_eq_getElem (by omega)⟩
  have hex : extract_repo a =
      .ok { full_name := removeChar ' ' (removeChar '\n' (pyStrip t))
            description := []
            html_url := githubUrlBase ++ removeChar ' ' (removeChar '\n' (pyStrip t))
            stargazers_count := pyStrip st } := by
    rw [extract_repo_eq a t st ht hst, hd]
  exact ⟨_, hex, rfl, fun s => by simp [fetch_trending_repos, extractAll, hex]⟩

/-- A concrete article with no description element. -/
def articleNoDesc : Article :=
  ⟨some "octo/nodesc".data, none, ["builtby".data, "7".data]⟩

/-- C8 witness: the concrete description-less article satisfies the
hypotheses, and the claim's conclusion holds there. -/
theorem claim_C8_witness :
    articleNoDesc.titleText = some "octo/nodesc".data ∧
    articleNoDesc.descText = none ∧
    2 ≤ articleNoDesc.mutedLinks.length ∧
    (∃ r, extract_repo articleNoDesc = .ok r ∧ r.description = [] ∧
      ∀ s, fetch_trending_repos (.response s [articleNoDesc]) = .ok [r]) :=
  ⟨rfl, rfl, by decide,
   claim_C8_missing_description articleNoDesc "octo/nodesc".data rfl rfl (by decide)⟩

/-- The character removed by `removeChar c` never occurs in its output. -/
theorem not_mem_removeChar (c : Char) (s : PyStr) : c ∉ removeChar c s := by
  simp [removeChar, List.mem_filter]

/-- `removeChar` only removes characters. -/
theorem mem_of_mem_removeChar {c d : Char} {s : PyStr}
    (h : d ∈ removeChar c s) : d ∈ s := by
  exact (List.mem_filter.mp h).1

/-- C10: every record a successful fetch returns has
`html_url = "https://github.com/" ++ full_name`, and `full_name` contains
no space and no newline (both are removed during extraction). -/
theorem claim_C10_url_invariant (s : Nat) (page : List Article) (repos : List Repo)
    (h : fetch_trending_repos (.response s page) = .ok repos)
    (r : Repo) (hr : r ∈ repos) :
    r.html_url = githubUrlBase ++ r.full_name ∧
    ' ' ∉ r.full_name ∧ '\n' ∉ r.full_name := by
  cases hex : extractAll page with
  | error e => simp [fetch_trending_repos, hex] at h
  | ok l =>
    simp only [fetch_trending_repos, hex] at h
    cases h
    obtain ⟨a, _, hra⟩ := extractAll_mem page l hex r (List.mem_of_mem_take hr)
    cases ht : a.titleText with
    | none => simp [extract_repo, ht] at hra
    | some t =>
      cases hst : a.mutedLinks[1]? with
      | none =>
        unfold extract_repo at hra
        rw [ht, hst] at hra
        cases hra
      | some st =>
        rw [extract_repo_eq a t st ht hst] at hra
        cases hra
        refine ⟨rfl, not_mem_removeChar ' ' _, fun hn => ?_⟩
        exact not_mem_removeChar '\n' (pyStrip t) (mem_of_mem_removeChar hn)

/-- C10 witness: the concrete one-article fetch succeeds and its record
satisfies the URL and character invariants. -/
theorem claim_C10_witness :
    fetch_trending_repos (.response 200 [sampleArticle]) = .ok [sampleRepo] ∧
    (sampleRepo.html_url = githubUrlBase ++ sampleRepo.full_name ∧
     ' ' ∉ sampleRepo.full_name ∧ '\n' ∉ sampleRepo.full_name) :=
  ⟨rfl, claim_C10_url_invariant 200 [sampleArticle] [sampleRepo] rfl sampleRepo
    (List.mem_singleton.mpr rfl)⟩

/-! ## Claim C5: section splitting in `display_report` -/

/-- The panel printed for one section whose `strip()` is non-blank: its
first line as the title, the remaining lines joined back as the content. -/
def sectionPanel (s : PyStr) : PyStr × PyStr :=
  (((pyStrip s).splitOn '\n').headD [],
   List.intercalate ['\n'] ((pyStrip s).splitOn '\n').tail)

/-- Rendering keeps exactly the sections with non-blank `strip()`, in
order, one panel each. -/
theorem filterMap_render_section (l : List PyStr) :
    l.filterMap render_section =
      (l.filter (fun s => decide (pyStrip s ≠ []))).map sectionPanel := by
  induction l with
  | nil => rfl
  | cons x xs ih =>
    by_cases hx : pyStrip x = [] <;>
      simp [render_section, sectionPanel, hx, ih]

/-- `'sep'.join` of a one-element list. -/
theorem intercalate_one (sep : List Char) (a : PyStr) :
    List.intercalate sep [a] = a := by
  simp [List.intercalate]

/-- `'sep'.join` of a list with at least two elements. -/
theorem intercalate_two (sep : List Char) (a b : PyStr) (l : List PyStr) :
    List.intercalate sep (a :: b :: l) = a ++ sep ++ List.intercalate sep (b :: l) := by
  simp [List.intercalate]

/-- C5: `display_report` renders one panel per section of
`report.split("---")` with non-blank `strip()`, in order, titled with the
section's first line and containing its remaining lines; and a body with
no `---` occurrence and non-blank `strip()` yields exactly one panel whose
title and content together are the whole (stripped) text. -/
theorem claim_C5_section_splitting (report : PyStr) :
    display_report report =
      ((splitDashes report).filter (fun s => decide (pyStrip s ≠ []))).map sectionPanel ∧
    (splitDashes report = [report] → pyStrip report ≠ [] →
      ∃ t c, display_report report = [(t, c)] ∧
        (t ++ '\n' :: c = pyStrip report ∨ (c = [] ∧ t = pyStrip report))) := by
  constructor
  · exact filterMap_render_section (splitDashes report)
  · intro hsplit hne
    have h1 : display_report report = [sectionPanel report] := by
      show (splitDashes report).filterMap render_section = _
      rw [hsplit]
      simp [render_section, sectionPanel, hne]
    have hrec : List.intercalate ['\n'] ((pyStrip report).splitOn '\n') =
        pyStrip report := List.intercalate_splitOn (pyStrip report) '\n'
    cases hl : (pyStrip report).splitOn '\n' with
    | nil =>
      exact absurd hl (List.splitOnP_ne_nil _ _)
    | cons t rest =>
      rw [hl] at hrec
      refine ⟨t, List.intercalate ['\n'] rest, ?_, ?_⟩
      · rw [h1]
        simp [sectionPanel, hl]
      · cases rest with
        | nil =>
          right
          exact ⟨rfl, by simpa [intercalate_one] using hrec⟩
        | cons b l =>
          left
          rw [intercalate_two] at hrec
          simpa [List.append_assoc] using hrec

/-- C5 witness: the claim's conclusion at the concrete delimiter-free body
`"Intro\nhello\nworld"`. -/
theorem claim_C5_witness :
    display_report "Intro\nhello\nworld".data =
      ((splitDashes "Intro\nhello\nworld".data).filter
        (fun s => decide (pyStrip s ≠ []))).map sectionPanel ∧
    (splitDashes "Intro\nhello\nworld".data = ["Intro\nhello\nworld".data] →
      pyStrip "Intro\nhello\nworld".data ≠ [] →
      ∃ t c, display_report "Intro\nhello\nworld".data = [(t, c)] ∧
        (t ++ '\n' :: c = pyStrip "Intro\nhello\nworld".data ∨
          (c = [] ∧ t = pyStrip "Intro\nhello\nworld".data))) :=
  claim_C5_section_splitting "Intro\nhello\nworld".data

/-! ## Claim C3: no partial save on a failing refresh -/

/-- C3: when a refresh run (`should_refresh_cache` true) ends in a raised
error, `save_cache` was never reached — the cache file is exactly as
before — and a failing fetch of a variant aborts before that variant's
summarizer invocation. -/
theorem claim_C3_no_partial_save (env : Env) (cache : Option CacheFile)
    (tr : List Action) (c' : Option CacheFile) (e : PyError)
    (href : should_refresh_cache cache env.now = true)
    (hrun : generate_daily_report env cache = (tr, c', .error e)) :
    Action.save ∉ tr ∧ c' = cache ∧
    ((∃ eA, fetch_trending_repos env.netAll = .error eA) →
      Action.summarizeAll ∉ tr) ∧
    ((∃ eG, fetch_trending_repos env.netGo = .error eG) →
      Action.summarizeGo ∉ tr) := by
  simp only [generate_daily_report, href] at hrun
  unfold refreshPath at hrun
  split at hrun
  next eA heqA =>
    simp only [Prod.mk.injEq] at hrun
    obtain ⟨h1, h2, -⟩ := hrun
    subst h1; subst h2
    exact ⟨by decide, rfl, fun _ => by decide, fun _ => by decide⟩
  next all_trending heqA =>
    split at hrun
    next eSA heqSA =>
      simp only [Prod.mk.injEq] at hrun
      obtain ⟨h1, h2, -⟩ := hrun
      subst h1; subst h2
      refine ⟨by decide, rfl, ?_, fun _ => by decide⟩
      rintro ⟨eA, heA⟩
      rw [heqA] at heA
      exact Except.noConfusion heA
    next all_repos_summary heqSA =>
      split at hrun
      next eG heqG =>
        simp only [Prod.mk.injEq] at hrun
        obtain ⟨h1, h2, -⟩ := hrun
        subst h1; subst h2
        refine ⟨by decide, rfl, ?_, fun _ => by decide⟩
        rintro ⟨eA, heA⟩
        rw [heqA] at heA
        exact Except.noConfusion heA
      next golang_trending heqG =>
        split at hrun
        next eSG heqSG =>
          simp only [Prod.mk.injEq] at hrun
          obtain ⟨h1, h2, -⟩ := hrun
          subst h1; subst h2
          refine ⟨by decide, rfl, ?_, ?_⟩
          · rintro ⟨eA, heA⟩
            rw [heqA] at heA
            exact Except.noConfusion heA
          · rintro ⟨eG, heG⟩
            rw [heqG] at heG
            exact Except.noConfusion heG
        next golang_repos_summary heqSG =>
          simp only [Prod.mk.injEq] at hrun
          exact absurd hrun.2.2 (fun h => Except.noConfusion h)

/-- A run environment whose unfiltered listing request fails at the
network level. -/
def envFail : Env :=
  { now := 0
    todayStr := "2025-01-01".data
    nowIso := "2025-01-01T00:00:00"
    netAll := .failure
    netGo := .response 200 []
    groq := fun _ => .ok "summary".data }

/-- C3 witness: with no cache file and a failing unfiltered fetch, the run
refreshes, raises after the first fetch, saves nothing and leaves the
(absent) cache file untouched. -/
theorem claim_C3_witness :
    should_refresh_cache none envFail.now = true ∧
    generate_daily_report envFail none =
      ([Action.fetchAll], none, .error .connectionError) ∧
    (Action.save ∉ [Action.fetchAll] ∧ (none : Option CacheFile) = none ∧
      ((∃ eA, fetch_trending_repos envFail.netAll = .error eA) →
        Action.summarizeAll ∉ [Action.fetchAll]) ∧
      ((∃ eG, fetch_trending_repos envFail.netGo = .error eG) →
        Action.summarizeGo ∉ [Action.fetchAll])) :=
  ⟨rfl, rfl,
   claim_C3_no_partial_save envFail none [Action.fetchAll] none .connectionError rfl rfl⟩

end Ghaze
